import Mathlib

/-!
Shallow embedding of the email-sender web application (src/main.py).

The application exposes one POST endpoint. `EmailsResource.on_post` checks a
shared-secret `key` in the JSON body, extracts five required fields, and calls
the dispatcher `send`, which tries Mailgun first and falls back to Mandrill on
any exception. Each provider function is wrapped in a pybreaker circuit
breaker (fail_max = 5, reset_timeout = 60).

External effects (environment variables, the outbound network calls) are made
explicit parameters: an `Env` record holds the environment variables the code
reads, and the outcome of each provider's network interaction is an oracle of
type `Except Exc Unit` supplied as an argument. Exceptions are modelled by the
`Exc` type and exception-based control flow by `Except`. Time is a `Nat`
parameter threaded to the breaker.
-/

/-- Python exceptions that occur in the program. `keyError` carries the missing
dictionary key (body field or environment variable name), as Python's
`KeyError` does. -/
inductive Exc where
  | runtimeError (msg : String)
  | keyError (key : String)
  | httpError (code : Nat)
  | mandrillError (msg : String)
  | circuitBreakerError
deriving DecidableEq, Repr

/-- Boolean success test for a provider call outcome. -/
def excOk : Except Exc Unit → Bool
  | .ok _ => true
  | .error _ => false

/-- Environment variables read by src/main.py (a missing variable is `none`;
`os.environ[...]` on a missing one raises `KeyError`). -/
structure Env where
  mailgunDomain : Option String
  mailgunApiKey : Option String
  mandrillApiKey : Option String
  apiKeyVar : Option String
deriving DecidableEq, Repr

/-- State of a circuit breaker's gate. `opened` is Python pybreaker's "open"
state; the half-open trial happens inside `call` when the timeout elapsed. -/
inductive BreakerState where
  | closed
  | opened
deriving DecidableEq, Repr

/-- Modelled from the spec: the pybreaker `CircuitBreaker` objects used at
src/main.py lines 42-43 come from the pybreaker library, which is not under
src/; its state is modelled from spec section 4.1: a consecutive-failure
counter, a closed/open gate, and the time of the failure that (re)opened the
gate. -/
structure CircuitBreaker where
  fail_max : Nat
  reset_timeout : Nat
  fail_counter : Nat
  state : BreakerState
  opened_at : Nat
deriving DecidableEq, Repr

/-- Modelled from the spec: pybreaker's `call` (not under src/), from spec
section 4.1: invoke the function; on success reset the failure count and close
the gate; on failure increment the count and open the gate once `fail_max`
consecutive failures are reached; while open, fail immediately with a
circuit-open error without invoking the function, until `reset_timeout` time
units have elapsed since the failure that opened it, after which one trial
call is allowed whose success closes the gate and whose failure re-opens it.
`fnResult` is the outcome the wrapped function would produce if invoked; the
returned `Bool` records whether it was invoked. -/
def CircuitBreaker.call (b : CircuitBreaker) (now : Nat) (fnResult : Except Exc Unit) :
    CircuitBreaker × Except Exc Unit × Bool :=
  match b.state with
  | .opened =>
    if now < b.opened_at + b.reset_timeout then
      (b, .error .circuitBreakerError, false)
    else
      match fnResult with
      | .ok _ => ({ b with state := .closed, fail_counter := 0 }, .ok (), true)
      | .error e =>
        ({ b with state := .opened, fail_counter := b.fail_counter + 1, opened_at := now },
          .error e, true)
  | .closed =>
    match fnResult with
    | .ok _ => ({ b with fail_counter := 0 }, .ok (), true)
    | .error e =>
      if b.fail_counter + 1 ≥ b.fail_max then
        ({ b with fail_counter := b.fail_counter + 1, state := .opened, opened_at := now },
          .error e, true)
      else
        ({ b with fail_counter := b.fail_counter + 1 }, .error e, true)

/-- `mailgun_breaker = pybreaker.CircuitBreaker(fail_max=5, reset_timeout=60, ...)`
(src/main.py line 42), in its initial state. -/
def mailgun_breaker : CircuitBreaker :=
  { fail_max := 5, reset_timeout := 60, fail_counter := 0, state := .closed, opened_at := 0 }

/-- `mandrill_breaker = pybreaker.CircuitBreaker(fail_max=5, reset_timeout=60, ...)`
(src/main.py line 43), in its initial state. -/
def mandrill_breaker : CircuitBreaker :=
  { fail_max := 5, reset_timeout := 60, fail_counter := 0, state := .closed, opened_at := 0 }

/-- The process-wide mutable state: the two module-level breakers. -/
structure SysState where
  mailgunBreaker : CircuitBreaker
  mandrillBreaker : CircuitBreaker
deriving DecidableEq, Repr

/-- The module-level state right after import. -/
def initialState : SysState :=
  { mailgunBreaker := mailgun_breaker, mandrillBreaker := mandrill_breaker }

/-- Observable effects of one invocation of the body of `send_with_mailgun`:
whether any environment variable was read and whether the outbound HTTP
request to Mailgun was made. -/
structure MailgunEffects where
  envRead : Bool
  httpCalled : Bool
deriving DecidableEq, Repr

/-- Body of `send_with_mailgun` (src/main.py lines 47-68), before the breaker
decorator: if `raise_error` is set, raise RuntimeError at once; otherwise read
`MAILGUN_DOMAIN` and `MAILGUN_API_KEY` from the environment (KeyError when
absent), then POST to Mailgun; `resp.raise_for_status()` is folded into the
network oracle `mgNet`. Returns the outcome together with the effects that
occurred. -/
def send_with_mailgun_inner (env : Env) (mgNet : Except Exc Unit)
    (sender receiver subject text html : String) (raise_error : Bool) :
    Except Exc Unit × MailgunEffects :=
  let _ := (sender, receiver, subject, text, html)
  if raise_error then
    (.error (.runtimeError "Forcing mailgun to fail to test fallback."),
      { envRead := false, httpCalled := false })
  else
    match env.mailgunDomain with
    | none => (.error (.keyError "MAILGUN_DOMAIN"), { envRead := true, httpCalled := false })
    | some _ =>
      match env.mailgunApiKey with
      | none => (.error (.keyError "MAILGUN_API_KEY"), { envRead := true, httpCalled := false })
      | some _ => (mgNet, { envRead := true, httpCalled := true })

/-- Body of `send_with_mandrill` (src/main.py lines 72-87), before the breaker
decorator: read `MANDRILL_API_KEY` (KeyError when absent), then construct the
client and send; the client interaction outcome is the oracle `mdNet`. -/
def send_with_mandrill_inner (env : Env) (mdNet : Except Exc Unit)
    (sender receiver subject text html : String) : Except Exc Unit :=
  let _ := (sender, receiver, subject, text, html)
  match env.mandrillApiKey with
  | none => .error (.keyError "MANDRILL_API_KEY")
  | some _ => mdNet

/-- `send_with_mailgun` as callers see it: the body wrapped by
`@mailgun_breaker` (src/main.py line 46). Returns the updated process state,
the call outcome, the body's effects (none when the breaker skipped the body),
and whether the breaker invoked the body. -/
def send_with_mailgun (st : SysState) (now : Nat) (env : Env) (mgNet : Except Exc Unit)
    (sender receiver subject text html : String) (raise_error : Bool) :
    SysState × Except Exc Unit × MailgunEffects × Bool :=
  let inner := send_with_mailgun_inner env mgNet sender receiver subject text html raise_error
  let c := st.mailgunBreaker.call now inner.1
  ({ st with mailgunBreaker := c.1 }, c.2.1,
    (if c.2.2 then inner.2 else { envRead := false, httpCalled := false }), c.2.2)

/-- `send_with_mandrill` as callers see it: the body wrapped by
`@mandrill_breaker` (src/main.py line 71). Returns the updated process state,
the call outcome, and whether the breaker invoked the body. -/
def send_with_mandrill (st : SysState) (now : Nat) (env : Env) (mdNet : Except Exc Unit)
    (sender receiver subject text html : String) :
    SysState × Except Exc Unit × Bool :=
  let r := send_with_mandrill_inner env mdNet sender receiver subject text html
  let c := st.mandrillBreaker.call now r
  ({ st with mandrillBreaker := c.1 }, c.2.1, c.2.2)

/-- Per-request record of provider activity: how many times each decorated
provider function was called by the dispatcher, whether each breaker let the
provider body run, and the Mailgun body's effects. -/
structure SendTrace where
  mailgunCalls : Nat
  mandrillCalls : Nat
  mailgunInvoked : Bool
  mandrillInvoked : Bool
  mailgunEffects : MailgunEffects
deriving DecidableEq, Repr

/-- The trace of a request that never reached the dispatcher. -/
def emptyTrace : SendTrace :=
  { mailgunCalls := 0, mandrillCalls := 0, mailgunInvoked := false,
    mandrillInvoked := false, mailgunEffects := { envRead := false, httpCalled := false } }

/-- `send` (src/main.py lines 90-107): try `send_with_mailgun` with
`raise_error=fallback`; on any exception (bare `except:`) call
`send_with_mandrill`, whose outcome — success or a further exception —
propagates to the caller. -/
def send (st : SysState) (now : Nat) (env : Env) (mgNet mdNet : Except Exc Unit)
    (sender receiver subject text html : String) (fallback : Bool) :
    SysState × Except Exc Unit × SendTrace :=
  let p := send_with_mailgun st now env mgNet sender receiver subject text html fallback
  match p.2.1 with
  | .ok _ =>
    (p.1, .ok (),
      { mailgunCalls := 1, mandrillCalls := 0, mailgunInvoked := p.2.2.2,
        mandrillInvoked := false, mailgunEffects := p.2.2.1 })
  | .error _ =>
    let s := send_with_mandrill p.1 now env mdNet sender receiver subject text html
    (s.1, s.2.1,
      { mailgunCalls := 1, mandrillCalls := 1, mailgunInvoked := p.2.2.2,
        mandrillInvoked := s.2.2, mailgunEffects := p.2.2.1 })

/-- The parsed JSON body `req.context['doc']` restricted to the fields the
handler reads; an absent field is `none`. -/
structure Doc where
  key : Option String
  sender : Option String
  receiver : Option String
  subject : Option String
  text : Option String
  html : Option String
  fallback : Option Bool
deriving DecidableEq, Repr

/-- `EmailsResource.__init__` (src/main.py lines 117-124):
`self.api_key = api_key or os.getenv('API_KEY')`. A `None` or empty (falsy)
argument falls through to the environment variable, which may itself be
absent. -/
def EmailsResource.init (api_key : Option String) (envApiKey : Option String) : Option String :=
  match api_key with
  | some k => if k = "" then envApiKey else some k
  | none => envApiKey

/-- HTTP outcomes the handler can produce: `falcon.HTTPNotFound` (404),
`falcon.HTTPBadRequest` naming a missing key (400), an uncaught exception
surfaced by the framework as a generic server error (500), and the 204
success status. -/
inductive HResp where
  | notFound
  | badRequest (field : String)
  | serverError
  | noContent
deriving DecidableEq, Repr

/-- The handler's mapping from the outcome of `send` to an HTTP response
(src/main.py lines 132-147): success sets 204; a KeyError is caught and
answered with 400 naming the missing key; any other exception is re-raised
and surfaces as a generic 500. -/
def respOf : Except Exc Unit → HResp
  | .ok _ => .noContent
  | .error (.keyError k) => .badRequest k
  | .error _ => .serverError

/-- `EmailsResource.on_post` (src/main.py lines 126-147). The auth gate
compares `doc.get('key')` with `self.api_key` and raises HTTPNotFound on
mismatch. The five required fields are looked up in the order written —
sender, receiver, subject, text, html — and the first absent one raises a
KeyError caught by the `except KeyError` branch, which answers 400 naming
that key; the same branch catches a KeyError escaping `send`. Any other
exception from `send` is re-raised (a 500 from the framework). Otherwise the
status is set to 204. `fallback` uses `doc.get('fallback')`, `None` being
falsy. -/
def on_post (api_key : Option String) (doc : Doc) (st : SysState) (now : Nat)
    (env : Env) (mgNet mdNet : Except Exc Unit) : SysState × HResp × SendTrace :=
  if doc.key ≠ api_key then
    (st, .notFound, emptyTrace)
  else
    match doc.sender with
    | none => (st, .badRequest "sender", emptyTrace)
    | some sender =>
    match doc.receiver with
    | none => (st, .badRequest "receiver", emptyTrace)
    | some receiver =>
    match doc.subject with
    | none => (st, .badRequest "subject", emptyTrace)
    | some subject =>
    match doc.text with
    | none => (st, .badRequest "text", emptyTrace)
    | some text =>
    match doc.html with
    | none => (st, .badRequest "html", emptyTrace)
    | some html =>
      let r := send st now env mgNet mdNet sender receiver subject text html
        (doc.fallback.getD false)
      (r.1, respOf r.2.1, r.2.2)

/-- The first absent required field in the order the handler reads them —
sender, receiver, subject, text, html — or `none` when all five are present.
This is the field whose lookup raises the KeyError in `on_post`. -/
def firstMissing (doc : Doc) : Option String :=
  match doc.sender with
  | none => some "sender"
  | some _ =>
  match doc.receiver with
  | none => some "receiver"
  | some _ =>
  match doc.subject with
  | none => some "subject"
  | some _ =>
  match doc.text with
  | none => some "text"
  | some _ =>
  match doc.html with
  | none => some "html"
  | some _ => none

/-- Iterate `CircuitBreaker.call` over a sequence of call times, the wrapped
function failing with `e` each time, keeping the breaker state. -/
def failSeq (b : CircuitBreaker) (e : Exc) : List Nat → CircuitBreaker
  | [] => b
  | t :: ts => failSeq ((b.call t (.error e)).1) e ts

/-- Run `on_post` once per time in the list with a fixed resource key, body
and environment, threading the process state (the module-level breakers)
from one request to the next. -/
def runPosts (api_key : Option String) (doc : Doc) (env : Env)
    (mgNet mdNet : Except Exc Unit) (st : SysState) : List Nat → SysState
  | [] => st
  | t :: ts => runPosts api_key doc env mgNet mdNet
      (on_post api_key doc st t env mgNet mdNet).1 ts

/-! ## General lemmas about the embedding -/

/-- The response the handler builds from the dispatch outcome is never a 404:
HTTPNotFound is raised only by the auth gate. -/
theorem respOf_ne_notFound (r : Except Exc Unit) : respOf r ≠ .notFound := by
  rcases r with e | _
  · cases e <;> simp [respOf]
  · simp [respOf]

/-- On a request whose key matches and whose five required fields are all
present, `on_post` reduces to dispatching `send` and mapping its outcome
through `respOf`. -/
theorem on_post_full_doc (api_key : Option String) (st : SysState) (now : Nat)
    (env : Env) (mgNet mdNet : Except Exc Unit)
    (sender receiver subject text html : String) (fb : Option Bool) :
    on_post api_key
      { key := api_key, sender := some sender, receiver := some receiver,
        subject := some subject, text := some text, html := some html, fallback := fb }
      st now env mgNet mdNet
      = (let r := send st now env mgNet mdNet sender receiver subject text html (fb.getD false)
         (r.1, respOf r.2.1, r.2.2)) := by
  simp [on_post]

/-- A call to the decorated `send_with_mailgun` with `raise_error=True` always
raises: the synthesized RuntimeError when the breaker lets the body run, or
the circuit-open error when it does not. -/
theorem mailgun_forced_fail (st : SysState) (now : Nat) (env : Env) (mgNet : Except Exc Unit)
    (sender receiver subject text html : String) :
    (send_with_mailgun st now env mgNet sender receiver subject text html true).2.1
      = .error (.runtimeError "Forcing mailgun to fail to test fallback.")
    ∨ (send_with_mailgun st now env mgNet sender receiver subject text html true).2.1
      = .error .circuitBreakerError := by
  unfold send_with_mailgun send_with_mailgun_inner
  simp only []
  cases h : st.mailgunBreaker.state <;>
    simp [CircuitBreaker.call, h] <;> split <;> simp

/-- A closed breaker invokes the wrapped function and re-raises the exception
it raised. -/
theorem breaker_closed_propagates (b : CircuitBreaker) (now : Nat) (e : Exc)
    (h : b.state = .closed) : (b.call now (.error e)).2.1 = .error e := by
  simp only [CircuitBreaker.call, h]
  split <;> rfl

/-- A call through the Mailgun breaker leaves the Mandrill breaker untouched. -/
theorem send_with_mailgun_preserves_mandrill (st : SysState) (now : Nat) (env : Env)
    (mgNet : Except Exc Unit) (sender receiver subject text html : String) (fb : Bool) :
    (send_with_mailgun st now env mgNet sender receiver subject text html fb).1.mandrillBreaker
      = st.mandrillBreaker := rfl

/-- On a request that reaches the dispatcher, the Mailgun breaker after the
request is the breaker before it stepped once by `call` on the outcome the
Mailgun body would produce. -/
theorem on_post_mailgunBreaker (api_key : Option String) (st : SysState) (t : Nat)
    (env : Env) (mgNet mdNet : Except Exc Unit)
    (sender receiver subject text html : String) (fb : Option Bool) :
    (on_post api_key
      { key := api_key, sender := some sender, receiver := some receiver,
        subject := some subject, text := some text, html := some html, fallback := fb }
      st t env mgNet mdNet).1.mailgunBreaker
      = (st.mailgunBreaker.call t
          (send_with_mailgun_inner env mgNet sender receiver subject text html
            (fb.getD false)).1).1 := by
  rw [on_post_full_doc]
  simp only [send]
  split <;> rfl

/-! ## The claims -/

/-- Claim C1: on a request with the correct key and all five required fields,
if the primary provider call raises any exception, or fallback=true forces it
to fail, then the secondary provider is invoked exactly once, and if that
secondary call succeeds the handler responds 204 No Content. -/
theorem C1_primary_failure_uses_secondary
    (api_key : Option String) (st : SysState) (now : Nat) (env : Env)
    (mgNet mdNet : Except Exc Unit) (sender receiver subject text html : String)
    (fb : Option Bool)
    (hfail : (∃ e, (send_with_mailgun st now env mgNet sender receiver subject text html
        (fb.getD false)).2.1 = .error e) ∨ fb = some true) :
    (on_post api_key
      { key := api_key, sender := some sender, receiver := some receiver,
        subject := some subject, text := some text, html := some html, fallback := fb }
      st now env mgNet mdNet).2.2.mandrillCalls = 1 ∧
    ((send_with_mandrill (send_with_mailgun st now env mgNet sender receiver subject text html
          (fb.getD false)).1 now env mdNet sender receiver subject text html).2.1 = .ok () →
      (on_post api_key
        { key := api_key, sender := some sender, receiver := some receiver,
          subject := some subject, text := some text, html := some html, fallback := fb }
        st now env mgNet mdNet).2.1 = .noContent) := by
  have he : ∃ e, (send_with_mailgun st now env mgNet sender receiver subject text html
      (fb.getD false)).2.1 = .error e := by
    rcases hfail with h | h
    · exact h
    · subst h
      rcases mailgun_forced_fail st now env mgNet sender receiver subject text html with h2 | h2 <;>
        exact ⟨_, h2⟩
  obtain ⟨e, he⟩ := he
  rw [on_post_full_doc]
  simp only [send]
  rw [he]
  refine ⟨by simp, fun hok => ?_⟩
  simp only []
  rw [hok]
  rfl

theorem C1_primary_failure_uses_secondary_witness :
    (on_post (some "abc")
      { key := some "abc", sender := some "a", receiver := some "b",
        subject := some "s", text := some "t", html := some "h", fallback := some true }
      initialState 0
      { mailgunDomain := some "d", mailgunApiKey := some "k",
        mandrillApiKey := some "m", apiKeyVar := none }
      (.ok ()) (.ok ())).2.2.mandrillCalls = 1 ∧
    (on_post (some "abc")
      { key := some "abc", sender := some "a", receiver := some "b",
        subject := some "s", text := some "t", html := some "h", fallback := some true }
      initialState 0
      { mailgunDomain := some "d", mailgunApiKey := some "k",
        mandrillApiKey := some "m", apiKeyVar := none }
      (.ok ()) (.ok ())).2.1 = .noContent :=
  ⟨(C1_primary_failure_uses_secondary (some "abc") initialState 0
      { mailgunDomain := some "d", mailgunApiKey := some "k",
        mandrillApiKey := some "m", apiKeyVar := none }
      (.ok ()) (.ok ()) "a" "b" "s" "t" "h" (some true) (Or.inr rfl)).1,
   (C1_primary_failure_uses_secondary (some "abc") initialState 0
      { mailgunDomain := some "d", mailgunApiKey := some "k",
        mandrillApiKey := some "m", apiKeyVar := none }
      (.ok ()) (.ok ()) "a" "b" "s" "t" "h" (some true) (Or.inr rfl)).2 rfl⟩

/-- Claim C2: on a request with the correct key and all five required fields,
if the primary provider call returns without raising, the secondary provider
is never invoked and the handler responds 204 No Content. -/
theorem C2_primary_success_no_fallback
    (api_key : Option String) (st : SysState) (now : Nat) (env : Env)
    (mgNet mdNet : Except Exc Unit) (sender receiver subject text html : String)
    (fb : Option Bool)
    (hok : (send_with_mailgun st now env mgNet sender receiver subject text html
        (fb.getD false)).2.1 = .ok ()) :
    (on_post api_key
      { key := api_key, sender := some sender, receiver := some receiver,
        subject := some subject, text := some text, html := some html, fallback := fb }
      st now env mgNet mdNet).2.2.mandrillCalls = 0 ∧
    (on_post api_key
      { key := api_key, sender := some sender, receiver := some receiver,
        subject := some subject, text := some text, html := some html, fallback := fb }
      st now env mgNet mdNet).2.2.mandrillInvoked = false ∧
    (on_post api_key
      { key := api_key, sender := some sender, receiver := some receiver,
        subject := some subject, text := some text, html := some html, fallback := fb }
      st now env mgNet mdNet).2.1 = .noContent := by
  rw [on_post_full_doc]
  simp only [send]
  rw [hok]
  simp [respOf]

theorem C2_primary_success_no_fallback_witness :
    (on_post (some "abc")
      { key := some "abc", sender := some "a", receiver := some "b",
        subject := some "s", text := some "t", html := some "h", fallback := none }
      initialState 0
      { mailgunDomain := some "d", mailgunApiKey := some "k",
        mandrillApiKey := some "m", apiKeyVar := none }
      (.ok ()) (.ok ())).2.2.mandrillCalls = 0 ∧
    (on_post (some "abc")
      { key := some "abc", sender := some "a", receiver := some "b",
        subject := some "s", text := some "t", html := some "h", fallback := none }
      initialState 0
      { mailgunDomain := some "d", mailgunApiKey := some "k",
        mandrillApiKey := some "m", apiKeyVar := none }
      (.ok ()) (.ok ())).2.2.mandrillInvoked = false ∧
    (on_post (some "abc")
      { key := some "abc", sender := some "a", receiver := some "b",
        subject := some "s", text := some "t", html := some "h", fallback := none }
      initialState 0
      { mailgunDomain := some "d", mailgunApiKey := some "k",
        mandrillApiKey := some "m", apiKeyVar := none }
      (.ok ()) (.ok ())).2.1 = .noContent :=
  C2_primary_success_no_fallback (some "abc") initialState 0
    { mailgunDomain := some "d", mailgunApiKey := some "k",
      mandrillApiKey := some "m", apiKeyVar := none }
    (.ok ()) (.ok ()) "a" "b" "s" "t" "h" none rfl

/-- Claim C3: for each provider breaker, 5 consecutive failed calls open it;
while open, every call fails immediately with a circuit-open error without
invoking the wrapped function and without changing the breaker, until the
reset timeout (60 time units for both breakers in src/main.py) has elapsed
since the failure that opened it; after that the breaker permits one trial
call, whose success closes it and resets the failure count, and whose failure
re-opens it at the failure time. Settled against the breaker modelled from
spec section 4.1, since the pybreaker library is not under src/. -/
theorem C3_breaker_lifecycle :
    (∀ (b : CircuitBreaker) (e : Exc) (t1 t2 t3 t4 t5 : Nat),
      b.fail_max = 5 → b.fail_counter = 0 → b.state = .closed →
      (failSeq b e [t1, t2, t3, t4, t5]).state = .opened ∧
      (failSeq b e [t1, t2, t3, t4, t5]).opened_at = t5 ∧
      (failSeq b e [t1, t2, t3, t4, t5]).fail_counter = 5) ∧
    (∀ (b : CircuitBreaker) (now : Nat) (r : Except Exc Unit),
      b.state = .opened → now < b.opened_at + b.reset_timeout →
      b.call now r = (b, .error .circuitBreakerError, false)) ∧
    (∀ (b : CircuitBreaker) (now : Nat) (r : Except Exc Unit),
      b.state = .opened → b.opened_at + b.reset_timeout ≤ now →
      (b.call now r).2.2 = true ∧
      (r = .ok () → (b.call now r).1.state = .closed ∧ (b.call now r).1.fail_counter = 0) ∧
      (∀ e, r = .error e → (b.call now r).1.state = .opened ∧
        (b.call now r).1.opened_at = now ∧ (b.call now r).2.1 = .error e)) := by
  refine ⟨?_, ?_, ?_⟩
  · intro b e t1 t2 t3 t4 t5 hfm hfc hst
    obtain ⟨fm, rt, fc, s, oa⟩ := b
    dsimp only [] at hfm hfc hst
    subst hfm; subst hfc; subst hst
    simp [failSeq, CircuitBreaker.call]
  · intro b now r hst hlt
    simp [CircuitBreaker.call, hst, hlt]
  · intro b now r hst hle
    have hnl : ¬ now < b.opened_at + b.reset_timeout := Nat.not_lt.2 hle
    refine ⟨?_, ?_, ?_⟩
    · rcases r with e | _ <;> simp [CircuitBreaker.call, hst, hnl]
    · intro hr
      subst hr
      simp [CircuitBreaker.call, hst, hnl]
    · intro e hr
      subst hr
      simp [CircuitBreaker.call, hst, hnl]

theorem C3_breaker_lifecycle_witness :
    ((failSeq mailgun_breaker (.httpError 500) [1, 2, 3, 4, 9]).state = .opened ∧
     (failSeq mailgun_breaker (.httpError 500) [1, 2, 3, 4, 9]).opened_at = 9 ∧
     (failSeq mailgun_breaker (.httpError 500) [1, 2, 3, 4, 9]).fail_counter = 5) ∧
    ((failSeq mailgun_breaker (.httpError 500) [1, 2, 3, 4, 9]).call 30 (.ok ())
      = (failSeq mailgun_breaker (.httpError 500) [1, 2, 3, 4, 9],
          .error .circuitBreakerError, false)) ∧
    ((failSeq mailgun_breaker (.httpError 500) [1, 2, 3, 4, 9]).call 70 (.ok ())).2.2 = true :=
  ⟨C3_breaker_lifecycle.1 mailgun_breaker (.httpError 500) 1 2 3 4 9 rfl rfl rfl,
   C3_breaker_lifecycle.2.1 (failSeq mailgun_breaker (.httpError 500) [1, 2, 3, 4, 9])
     30 (.ok ()) (by decide) (by decide),
   (C3_breaker_lifecycle.2.2 (failSeq mailgun_breaker (.httpError 500) [1, 2, 3, 4, 9])
     70 (.ok ()) (by decide) (by decide)).1⟩

/-- Claim C4 counterexample: a request with correct key and all five fields on
which both provider calls raise — Mailgun from a failing network call and
Mandrill from the KeyError on the unset MANDRILL_API_KEY environment variable
— yet the handler responds 400 Bad Request naming MANDRILL_API_KEY, not the
500 generic server error the claim asserts for every such request. -/
theorem C4_counterexample_secondary_keyError :
    (∃ e, (send_with_mailgun initialState 0
        { mailgunDomain := some "d", mailgunApiKey := some "k",
          mandrillApiKey := none, apiKeyVar := none }
        (.error (.httpError 500)) "a" "b" "s" "t" "h" false).2.1 = .error e) ∧
    (∃ e2, (send_with_mandrill (send_with_mailgun initialState 0
        { mailgunDomain := some "d", mailgunApiKey := some "k",
          mandrillApiKey := none, apiKeyVar := none }
        (.error (.httpError 500)) "a" "b" "s" "t" "h" false).1 0
        { mailgunDomain := some "d", mailgunApiKey := some "k",
          mandrillApiKey := none, apiKeyVar := none }
        (.ok ()) "a" "b" "s" "t" "h").2.1 = .error e2) ∧
    (on_post (some "abc")
      { key := some "abc", sender := some "a", receiver := some "b",
        subject := some "s", text := some "t", html := some "h", fallback := none }
      initialState 0
      { mailgunDomain := some "d", mailgunApiKey := some "k",
        mandrillApiKey := none, apiKeyVar := none }
      (.error (.httpError 500)) (.ok ())).2.1 = .badRequest "MANDRILL_API_KEY" ∧
    (on_post (some "abc")
      { key := some "abc", sender := some "a", receiver := some "b",
        subject := some "s", text := some "t", html := some "h", fallback := none }
      initialState 0
      { mailgunDomain := some "d", mailgunApiKey := some "k",
        mandrillApiKey := none, apiKeyVar := none }
      (.error (.httpError 500)) (.ok ())).2.1 ≠ .serverError :=
  ⟨⟨.httpError 500, rfl⟩, ⟨.keyError "MANDRILL_API_KEY", rfl⟩, rfl, by decide⟩

/-- Claim C4, amended: on a request with the correct key and all five
required fields, if both provider calls raise, each provider was invoked
exactly once, the error of the secondary propagates out of the dispatcher
uncaught, and the handler responds 500 — unless the error of the secondary is
a KeyError, which the handler catches and answers with 400 naming that key. -/
theorem C4_both_fail_amended
    (api_key : Option String) (st : SysState) (now : Nat) (env : Env)
    (mgNet mdNet : Except Exc Unit) (sender receiver subject text html : String)
    (fb : Option Bool)
    (hp : ∃ e, (send_with_mailgun st now env mgNet sender receiver subject text html
        (fb.getD false)).2.1 = .error e)
    (hs : ∃ e2, (send_with_mandrill (send_with_mailgun st now env mgNet sender receiver subject
        text html (fb.getD false)).1 now env mdNet sender receiver subject text html).2.1
        = .error e2) :
    (on_post api_key
      { key := api_key, sender := some sender, receiver := some receiver,
        subject := some subject, text := some text, html := some html, fallback := fb }
      st now env mgNet mdNet).2.2.mailgunCalls = 1 ∧
    (on_post api_key
      { key := api_key, sender := some sender, receiver := some receiver,
        subject := some subject, text := some text, html := some html, fallback := fb }
      st now env mgNet mdNet).2.2.mandrillCalls = 1 ∧
    (send st now env mgNet mdNet sender receiver subject text html (fb.getD false)).2.1
      = (send_with_mandrill (send_with_mailgun st now env mgNet sender receiver subject
          text html (fb.getD false)).1 now env mdNet sender receiver subject text html).2.1 ∧
    ((∀ k, (send_with_mandrill (send_with_mailgun st now env mgNet sender receiver subject
          text html (fb.getD false)).1 now env mdNet sender receiver subject text html).2.1
          ≠ .error (.keyError k)) →
      (on_post api_key
        { key := api_key, sender := some sender, receiver := some receiver,
          subject := some subject, text := some text, html := some html, fallback := fb }
        st now env mgNet mdNet).2.1 = .serverError) ∧
    (∀ k, (send_with_mandrill (send_with_mailgun st now env mgNet sender receiver subject
          text html (fb.getD false)).1 now env mdNet sender receiver subject text html).2.1
          = .error (.keyError k) →
      (on_post api_key
        { key := api_key, sender := some sender, receiver := some receiver,
          subject := some subject, text := some text, html := some html, fallback := fb }
        st now env mgNet mdNet).2.1 = .badRequest k) := by
  obtain ⟨e, he⟩ := hp
  obtain ⟨e2, hs2⟩ := hs
  rw [on_post_full_doc]
  simp only [send]
  rw [he]
  refine ⟨by simp, by simp, by rfl, ?_, ?_⟩
  · intro hk
    simp only []
    rw [hs2]
    cases e2 with
    | keyError k => exact absurd hs2 (hk k)
    | runtimeError m => rfl
    | httpError c => rfl
    | mandrillError m => rfl
    | circuitBreakerError => rfl
  · intro k hkk
    simp only []
    rw [hkk]
    rfl

theorem C4_both_fail_amended_witness :
    (on_post (some "abc")
      { key := some "abc", sender := some "a", receiver := some "b",
        subject := some "s", text := some "t", html := some "h", fallback := none }
      initialState 0
      { mailgunDomain := some "d", mailgunApiKey := some "k",
        mandrillApiKey := some "m", apiKeyVar := none }
      (.error (.httpError 500)) (.error (.mandrillError "boom"))).2.2.mailgunCalls = 1 ∧
    (on_post (some "abc")
      { key := some "abc", sender := some "a", receiver := some "b",
        subject := some "s", text := some "t", html := some "h", fallback := none }
      initialState 0
      { mailgunDomain := some "d", mailgunApiKey := some "k",
        mandrillApiKey := some "m", apiKeyVar := none }
      (.error (.httpError 500)) (.error (.mandrillError "boom"))).2.2.mandrillCalls = 1 ∧
    (on_post (some "abc")
      { key := some "abc", sender := some "a", receiver := some "b",
        subject := some "s", text := some "t", html := some "h", fallback := none }
      initialState 0
      { mailgunDomain := some "d", mailgunApiKey := some "k",
        mandrillApiKey := some "m", apiKeyVar := none }
      (.error (.httpError 500)) (.error (.mandrillError "boom"))).2.1 = .serverError :=
  ⟨(C4_both_fail_amended (some "abc") initialState 0
      { mailgunDomain := some "d", mailgunApiKey := some "k",
        mandrillApiKey := some "m", apiKeyVar := none }
      (.error (.httpError 500)) (.error (.mandrillError "boom")) "a" "b" "s" "t" "h" none
      ⟨.httpError 500, rfl⟩ ⟨.mandrillError "boom", rfl⟩).1,
   (C4_both_fail_amended (some "abc") initialState 0
      { mailgunDomain := some "d", mailgunApiKey := some "k",
        mandrillApiKey := some "m", apiKeyVar := none }
      (.error (.httpError 500)) (.error (.mandrillError "boom")) "a" "b" "s" "t" "h" none
      ⟨.httpError 500, rfl⟩ ⟨.mandrillError "boom", rfl⟩).2.1,
   (C4_both_fail_amended (some "abc") initialState 0
      { mailgunDomain := some "d", mailgunApiKey := some "k",
        mandrillApiKey := some "m", apiKeyVar := none }
      (.error (.httpError 500)) (.error (.mandrillError "boom")) "a" "b" "s" "t" "h" none
      ⟨.httpError 500, rfl⟩ ⟨.mandrillError "boom", rfl⟩).2.2.2.1
     (fun _ h => Exc.noConfusion (Except.error.inj h))⟩

/-- Claim C5 counterexample: with the resource constructed with no API key and
the API_KEY environment variable unset, a request whose body has no key field
is not answered with 404 — it passes the gate and here is answered 204 — so
the claim that every request lacking a key field gets 404 is false. -/
theorem C5_counterexample_no_secret :
    EmailsResource.init none none = none ∧
    (on_post (EmailsResource.init none none)
      { key := none, sender := some "a", receiver := some "b",
        subject := some "s", text := some "t", html := some "h", fallback := none }
      initialState 0
      { mailgunDomain := some "d", mailgunApiKey := some "k",
        mandrillApiKey := some "m", apiKeyVar := none }
      (.ok ()) (.ok ())).2.1 = .noContent ∧
    (on_post (EmailsResource.init none none)
      { key := none, sender := some "a", receiver := some "b",
        subject := some "s", text := some "t", html := some "h", fallback := none }
      initialState 0
      { mailgunDomain := some "d", mailgunApiKey := some "k",
        mandrillApiKey := some "m", apiKeyVar := none }
      (.ok ()) (.ok ())).2.1 ≠ .notFound := by
  refine ⟨rfl, rfl, by decide⟩

/-- Claim C5, amended: on every request where the value of the key field
(absent meaning None) differs from the configured secret — in particular
every request with a missing or wrong key whenever a non-None secret is
configured — the handler responds 404 Not Found with no provider invoked and
no validation performed, regardless of all other body fields; when the
configured secret is None, a request lacking the key field instead passes the
gate (claim C8). -/
theorem C5_auth_gate_rejects (api_key : Option String) (doc : Doc) (st : SysState)
    (now : Nat) (env : Env) (mgNet mdNet : Except Exc Unit)
    (h : doc.key ≠ api_key) :
    on_post api_key doc st now env mgNet mdNet = (st, .notFound, emptyTrace) := by
  simp [on_post, h]

theorem C5_auth_gate_rejects_witness :
    (some "zzz" : Option String) ≠ some "abc" ∧
    on_post (some "abc")
      { key := some "zzz", sender := some "a", receiver := some "b",
        subject := some "s", text := some "t", html := some "h", fallback := none }
      initialState 0
      { mailgunDomain := some "d", mailgunApiKey := some "k",
        mandrillApiKey := some "m", apiKeyVar := none }
      (.ok ()) (.ok ()) = (initialState, .notFound, emptyTrace) :=
  ⟨by decide,
   C5_auth_gate_rejects (some "abc")
     { key := some "zzz", sender := some "a", receiver := some "b",
       subject := some "s", text := some "t", html := some "h", fallback := none }
     initialState 0
     { mailgunDomain := some "d", mailgunApiKey := some "k",
       mandrillApiKey := some "m", apiKeyVar := none }
     (.ok ()) (.ok ()) (by decide)⟩

/-- Claim C6: on every request with the correct key but at least one of the
five required fields missing, the handler responds 400 Bad Request naming
exactly the first missing field in the order sender, receiver, subject, text,
html, with no provider invoked. -/
theorem C6_first_missing_field (api_key : Option String) (doc : Doc) (st : SysState)
    (now : Nat) (env : Env) (mgNet mdNet : Except Exc Unit) (k : String)
    (hkey : doc.key = api_key) (hm : firstMissing doc = some k) :
    on_post api_key doc st now env mgNet mdNet = (st, .badRequest k, emptyTrace) := by
  obtain ⟨dk, ds, dr, dsub, dt, dh, dfb⟩ := doc
  simp only [] at hkey
  subst hkey
  cases ds <;> cases dr <;> cases dsub <;> cases dt <;> cases dh <;>
    simp_all [on_post, firstMissing]

theorem C6_first_missing_field_witness :
    on_post (some "abc")
      { key := some "abc", sender := some "a", receiver := none,
        subject := some "s", text := none, html := some "h", fallback := none }
      initialState 0
      { mailgunDomain := some "d", mailgunApiKey := some "k",
        mandrillApiKey := some "m", apiKeyVar := none }
      (.ok ()) (.ok ()) = (initialState, .badRequest "receiver", emptyTrace) :=
  C6_first_missing_field (some "abc")
    { key := some "abc", sender := some "a", receiver := none,
      subject := some "s", text := none, html := some "h", fallback := none }
    initialState 0
    { mailgunDomain := some "d", mailgunApiKey := some "k",
      mandrillApiKey := some "m", apiKeyVar := none }
    (.ok ()) (.ok ()) "receiver" rfl rfl

/-- Claim C7: every invocation of the primary provider body with raise_error
true fails with the synthesized RuntimeError before anything else happens: no
environment variable is read and no outbound HTTP call is made, whatever the
environment and whatever the network would have answered. -/
theorem C7_forced_failure_no_network (env : Env) (mgNet : Except Exc Unit)
    (sender receiver subject text html : String) :
    send_with_mailgun_inner env mgNet sender receiver subject text html true
      = (.error (.runtimeError "Forcing mailgun to fail to test fallback."),
         { envRead := false, httpCalled := false }) := rfl

/-- Claim C8: when the resource is constructed with no API key and the
API_KEY environment variable is unset, every request whose body lacks the key
field passes the auth gate — it is never answered 404, whatever the rest of
the body, the breaker states or the providers do. -/
theorem C8_no_secret_passes_gate (doc : Doc) (st : SysState) (now : Nat) (env : Env)
    (mgNet mdNet : Except Exc Unit) (hno : doc.key = none) :
    (on_post (EmailsResource.init none none) doc st now env mgNet mdNet).2.1 ≠ .notFound := by
  obtain ⟨dk, ds, dr, dsub, dt, dh, dfb⟩ := doc
  simp only [] at hno
  subst hno
  cases ds <;> cases dr <;> cases dsub <;> cases dt <;> cases dh <;>
    simp [on_post, EmailsResource.init, respOf_ne_notFound]

theorem C8_no_secret_passes_gate_witness :
    (on_post (EmailsResource.init none none)
      { key := none, sender := some "a", receiver := some "b",
        subject := some "s", text := some "t", html := some "h", fallback := none }
      initialState 0
      { mailgunDomain := some "d", mailgunApiKey := some "k",
        mandrillApiKey := some "m", apiKeyVar := none }
      (.ok ()) (.ok ())).2.1 ≠ .notFound :=
  C8_no_secret_passes_gate
    { key := none, sender := some "a", receiver := some "b",
      subject := some "s", text := some "t", html := some "h", fallback := none }
    initialState 0
    { mailgunDomain := some "d", mailgunApiKey := some "k",
      mandrillApiKey := some "m", apiKeyVar := none }
    (.ok ()) (.ok ()) rfl

/-- Claim C9: a forced failure raises inside the breaker-wrapped primary body
and counts like a real failure: starting from a fresh primary breaker, five
consecutive requests with fallback=true (correct key, all fields) leave it
open with failure count 5 and opening time the fifth request time; a further
request without fallback before the 60-unit cooldown elapses does not run the
primary provider body — no environment read, no HTTP call — and goes straight
to the secondary, invoked once. Settled against the breaker modelled from
spec section 4.1, since the pybreaker library is not under src/. -/
theorem C9_forced_failures_open_primary_breaker
    (api_key : Option String) (st : SysState) (env : Env)
    (mgNet mdNet : Except Exc Unit) (sender receiver subject text html : String)
    (t1 t2 t3 t4 t5 u : Nat)
    (hfm : st.mailgunBreaker.fail_max = 5)
    (hrt : st.mailgunBreaker.reset_timeout = 60)
    (hfc : st.mailgunBreaker.fail_counter = 0)
    (hst : st.mailgunBreaker.state = .closed)
    (hu : u < t5 + 60) :
    (runPosts api_key
        { key := api_key, sender := some sender, receiver := some receiver,
          subject := some subject, text := some text, html := some html, fallback := some true }
        env mgNet mdNet st [t1, t2, t3, t4, t5]).mailgunBreaker
      = { fail_max := 5, reset_timeout := 60, fail_counter := 5,
          state := .opened, opened_at := t5 } ∧
    (on_post api_key
        { key := api_key, sender := some sender, receiver := some receiver,
          subject := some subject, text := some text, html := some html, fallback := none }
        (runPosts api_key
          { key := api_key, sender := some sender, receiver := some receiver,
            subject := some subject, text := some text, html := some html, fallback := some true }
          env mgNet mdNet st [t1, t2, t3, t4, t5]) u env mgNet mdNet).2.2.mailgunInvoked
      = false ∧
    (on_post api_key
        { key := api_key, sender := some sender, receiver := some receiver,
          subject := some subject, text := some text, html := some html, fallback := none }
        (runPosts api_key
          { key := api_key, sender := some sender, receiver := some receiver,
            subject := some subject, text := some text, html := some html, fallback := some true }
          env mgNet mdNet st [t1, t2, t3, t4, t5]) u env mgNet mdNet).2.2.mailgunEffects.httpCalled
      = false ∧
    (on_post api_key
        { key := api_key, sender := some sender, receiver := some receiver,
          subject := some subject, text := some text, html := some html, fallback := none }
        (runPosts api_key
          { key := api_key, sender := some sender, receiver := some receiver,
            subject := some subject, text := some text, html := some html, fallback := some true }
          env mgNet mdNet st [t1, t2, t3, t4, t5]) u env mgNet mdNet).2.2.mandrillCalls
      = 1 := by
  have hb : (runPosts api_key
      { key := api_key, sender := some sender, receiver := some receiver,
        subject := some subject, text := some text, html := some html, fallback := some true }
      env mgNet mdNet st [t1, t2, t3, t4, t5]).mailgunBreaker
      = { fail_max := 5, reset_timeout := 60, fail_counter := 5,
          state := .opened, opened_at := t5 } := by
    obtain ⟨bg, bd⟩ := st
    obtain ⟨fm, rt, fc, s, oa⟩ := bg
    dsimp only [] at hfm hrt hfc hst
    subst hfm; subst hrt; subst hfc; subst hst
    simp [runPosts, on_post_mailgunBreaker, send_with_mailgun_inner, CircuitBreaker.call]
  refine ⟨hb, ?_, ?_, ?_⟩ <;>
  · rw [on_post_full_doc]
    simp only [send, send_with_mailgun]
    rw [hb]
    simp [CircuitBreaker.call, hu]

theorem C9_forced_failures_open_primary_breaker_witness :
    (runPosts (some "abc")
        { key := some "abc", sender := some "a", receiver := some "b",
          subject := some "s", text := some "t", html := some "h", fallback := some true }
        { mailgunDomain := some "d", mailgunApiKey := some "k",
          mandrillApiKey := some "m", apiKeyVar := none }
        (.ok ()) (.ok ()) initialState [1, 2, 3, 4, 5]).mailgunBreaker
      = { fail_max := 5, reset_timeout := 60, fail_counter := 5,
          state := .opened, opened_at := 5 } ∧
    (on_post (some "abc")
        { key := some "abc", sender := some "a", receiver := some "b",
          subject := some "s", text := some "t", html := some "h", fallback := none }
        (runPosts (some "abc")
          { key := some "abc", sender := some "a", receiver := some "b",
            subject := some "s", text := some "t", html := some "h", fallback := some true }
          { mailgunDomain := some "d", mailgunApiKey := some "k",
            mandrillApiKey := some "m", apiKeyVar := none }
          (.ok ()) (.ok ()) initialState [1, 2, 3, 4, 5]) 10
        { mailgunDomain := some "d", mailgunApiKey := some "k",
          mandrillApiKey := some "m", apiKeyVar := none }
        (.ok ()) (.ok ())).2.2.mailgunInvoked = false :=
  ⟨(C9_forced_failures_open_primary_breaker (some "abc") initialState
      { mailgunDomain := some "d", mailgunApiKey := some "k",
        mandrillApiKey := some "m", apiKeyVar := none }
      (.ok ()) (.ok ()) "a" "b" "s" "t" "h" 1 2 3 4 5 10 rfl rfl rfl rfl (by decide)).1,
   (C9_forced_failures_open_primary_breaker (some "abc") initialState
      { mailgunDomain := some "d", mailgunApiKey := some "k",
        mandrillApiKey := some "m", apiKeyVar := none }
      (.ok ()) (.ok ()) "a" "b" "s" "t" "h" 1 2 3 4 5 10 rfl rfl rfl rfl (by decide)).2.1⟩

/-- Claim C10: on a request with the correct key and all five fields whose
primary attempt fails, if MANDRILL_API_KEY is unset and the secondary breaker
is closed, the KeyError raised by the secondary body propagates to the
handler, whose KeyError branch answers 400 Bad Request naming
MANDRILL_API_KEY as if it were a missing body field, not 500. Settled against
the breaker modelled from spec section 4.1, since the pybreaker library is
not under src/. -/
theorem C10_secondary_keyError_bad_request
    (api_key : Option String) (st : SysState) (now : Nat) (env : Env)
    (mgNet mdNet : Except Exc Unit) (sender receiver subject text html : String)
    (fb : Option Bool)
    (hmd : env.mandrillApiKey = none)
    (hcl : st.mandrillBreaker.state = .closed)
    (hfail : ∃ e, (send_with_mailgun st now env mgNet sender receiver subject text html
        (fb.getD false)).2.1 = .error e) :
    (on_post api_key
      { key := api_key, sender := some sender, receiver := some receiver,
        subject := some subject, text := some text, html := some html, fallback := fb }
      st now env mgNet mdNet).2.1 = .badRequest "MANDRILL_API_KEY" := by
  obtain ⟨e, he⟩ := hfail
  have h2 : (send_with_mandrill (send_with_mailgun st now env mgNet sender receiver subject
      text html (fb.getD false)).1 now env mdNet sender receiver subject text html).2.1
      = .error (.keyError "MANDRILL_API_KEY") := by
    unfold send_with_mandrill send_with_mandrill_inner
    rw [hmd]
    simp only []
    exact breaker_closed_propagates _ now _
      (by rw [send_with_mailgun_preserves_mandrill]; exact hcl)
  rw [on_post_full_doc]
  simp only [send]
  rw [he]
  simp only []
  rw [h2]
  rfl

theorem C10_secondary_keyError_bad_request_witness :
    (on_post (some "abc")
      { key := some "abc", sender := some "a", receiver := some "b",
        subject := some "s", text := some "t", html := some "h", fallback := some true }
      initialState 0
      { mailgunDomain := some "d", mailgunApiKey := some "k",
        mandrillApiKey := none, apiKeyVar := none }
      (.ok ()) (.ok ())).2.1 = .badRequest "MANDRILL_API_KEY" :=
  C10_secondary_keyError_bad_request (some "abc") initialState 0
    { mailgunDomain := some "d", mailgunApiKey := some "k",
      mandrillApiKey := none, apiKeyVar := none }
    (.ok ()) (.ok ()) "a" "b" "s" "t" "h" (some true) rfl rfl
    ⟨.runtimeError "Forcing mailgun to fail to test fallback.", rfl⟩
